import Mathlib

/-!
Verification of the minion-space gradio front-end (src/app_with_mcp.py and
src/app_without_mcp.py): configuration resolution, route/payload dispatch,
MCP tool aggregation, and the lazy singleton construction of the MCP client.

The Python source is shallowly embedded: `os.getenv` becomes an explicit
environment `Env := String → Option String`; Python `float()` / `int()`
applied to configuration strings become `pyFloat?` / `pyInt?` returning
`Option` (a `none` models the `ValueError` the builtins raise); dictionaries
with a fixed key set become structures; the `brain.step` collaborator becomes
a function parameter.
-/

deriving instance DecidableEq for Except

/-- Process environment as seen through os.getenv: a key either has a string
value or is absent. -/
def Env : Type := String → Option String

/-- Model of os.getenv(key, default): the value when present, else the
default literal. -/
def getenvD (env : Env) (key dflt : String) : String :=
  (env key).getD dflt

/-- Accumulate a decimal digit list into a natural number, most significant
digit first. -/
def digitsVal (cs : List Char) : Nat :=
  cs.foldl (fun a c => 10 * a + (c.toNat - 48)) 0

/-- Every character is a decimal digit. -/
def allDigits (cs : List Char) : Bool :=
  cs.all Char.isDigit

/-- Split a character list at the first dot, if any. -/
def splitFirstDot : List Char → List Char × Option (List Char)
  | [] => ([], none)
  | c :: rest =>
    if c = '.' then ([], some rest)
    else
      let r := splitFirstDot rest
      (c :: r.1, r.2)

/-- Unsigned decimal float body: digits, optionally with one dot
(e.g. "0.7", "4000", ".5", "2."). A second dot, an empty string or a
non-digit character is rejected. -/
def pyFloatCore (cs : List Char) : Option Rat :=
  let r := splitFirstDot cs
  match r.2 with
  | none =>
    if cs ≠ [] ∧ allDigits cs then some (mkRat (digitsVal cs) 1) else none
  | some fp =>
    if (r.1 ≠ [] ∨ fp ≠ []) ∧ allDigits r.1 ∧ allDigits fp then
      some (mkRat (digitsVal r.1 * 10 ^ fp.length + digitsVal fp) (10 ^ fp.length))
    else none

/-- Model of Python float(s) on plain decimal literals with an optional
sign; `none` models the ValueError raised on a non-numeric string. (The
exotic accepted forms - exponents, inf/nan, underscores, surrounding
whitespace - are outside the inputs this program's configuration uses and
are not modelled.) -/
def pyFloat? (s : String) : Option Rat :=
  match s.data with
  | '-' :: rest => (pyFloatCore rest).map Neg.neg
  | '+' :: rest => pyFloatCore rest
  | _ => pyFloatCore s.data

/-- Model of Python int(s) on plain signed decimal literals; `none` models
the ValueError raised on a non-numeric string. -/
def pyInt? (s : String) : Option Int :=
  match s.data with
  | '-' :: rest => if rest ≠ [] ∧ allDigits rest then some (-(digitsVal rest : Int)) else none
  | '+' :: rest => if rest ≠ [] ∧ allDigits rest then some (digitsVal rest : Int) else none
  | cs => if cs ≠ [] ∧ allDigits cs then some (digitsVal cs : Int) else none

/-- Error raised while building a configuration: Python's ValueError from
float()/int() on a present but non-numeric environment value, tagged with
the offending key. This realizes the spec's ConfigurationError. -/
inductive ConfigError where
  | valueError (key : String)
deriving DecidableEq, Repr

/-- Evaluate float(os.getenv(key, dflt)). -/
def envFloat (env : Env) (key dflt : String) : Except ConfigError Rat :=
  match pyFloat? (getenvD env key dflt) with
  | some v => Except.ok v
  | none => Except.error (ConfigError.valueError key)

/-- Evaluate int(os.getenv(key, dflt)). -/
def envInt (env : Env) (key dflt : String) : Except ConfigError Int :=
  match pyInt? (getenvD env key dflt) with
  | some v => Except.ok v
  | none => Except.error (ConfigError.valueError key)

/-- The LLMConfig class of both app files, and equally the configuration
dictionary built by create_custom_llm_config (its key set is exactly these
eight fields). -/
structure LLMConfig where
  api_type : String
  api_key : String
  base_url : String
  api_version : String
  model : String
  temperature : Rat
  max_tokens : Int
  vision_enabled : Bool
deriving DecidableEq, Repr

/-- get_default_config of both app files: every string field falls back to
its literal default; temperature and max_tokens are parsed with
float()/int() and raise on a present but non-numeric value. Python
evaluates the fallible arguments in source order (temperature before
max_tokens), which the bind order below preserves. -/
def get_default_config (env : Env) : Except ConfigError LLMConfig := do
  let temperature ← envFloat env "DEFAULT_TEMPERATURE" "0.7"
  let max_tokens ← envInt env "DEFAULT_MAX_TOKENS" "4000"
  Except.ok
    { api_type := getenvD env "DEFAULT_API_TYPE" "azure"
      api_key := getenvD env "DEFAULT_API_KEY" ""
      base_url := getenvD env "DEFAULT_BASE_URL" ""
      api_version := getenvD env "DEFAULT_API_VERSION" "2024-06-01"
      model := getenvD env "DEFAULT_MODEL" "gpt-4o"
      temperature := temperature
      max_tokens := max_tokens
      vision_enabled := false }

/-- get_preset_configs of both app files: the four presets in dict
insertion order. The fallible numeric parses are sequenced in the same
order Python evaluates them (dict entries in order; within an entry,
temperature before max_tokens); the infallible string lookups commute with
them. -/
def get_preset_configs (env : Env) : Except ConfigError (List (String × LLMConfig)) := do
  let t1 ← envFloat env "GPT_4O_TEMPERATURE" "0"
  let m1 ← envInt env "GPT_4O_MAX_TOKENS" "4000"
  let t2 ← envFloat env "GPT_4O_MINI_TEMPERATURE" "0.1"
  let m2 ← envInt env "GPT_4O_MINI_MAX_TOKENS" "4000"
  let t3 ← envFloat env "GPT_41_TEMPERATURE" "0.7"
  let m3 ← envInt env "GPT_41_MAX_TOKENS" "4000"
  let t4 ← envFloat env "O4_MINI_TEMPERATURE" "0.7"
  let m4 ← envInt env "O4_MINI_MAX_TOKENS" "4000"
  Except.ok
    [ ("gpt-4o",
       { api_type := getenvD env "GPT_4O_API_TYPE" "azure"
         api_key := getenvD env "GPT_4O_API_KEY" ""
         base_url := getenvD env "GPT_4O_BASE_URL" ""
         api_version := getenvD env "GPT_4O_API_VERSION" "2024-06-01"
         model := getenvD env "GPT_4O_MODEL" "gpt-4o"
         temperature := t1, max_tokens := m1, vision_enabled := false }),
      ("gpt-4o-mini",
       { api_type := getenvD env "GPT_4O_MINI_API_TYPE" "azure"
         api_key := getenvD env "GPT_4O_MINI_API_KEY" ""
         base_url := getenvD env "GPT_4O_MINI_BASE_URL" ""
         api_version := getenvD env "GPT_4O_MINI_API_VERSION" "2024-06-01"
         model := getenvD env "GPT_4O_MINI_MODEL" "gpt-4o-mini"
         temperature := t2, max_tokens := m2, vision_enabled := false }),
      ("gpt-4.1",
       { api_type := getenvD env "GPT_41_API_TYPE" "azure"
         api_key := getenvD env "GPT_41_API_KEY" ""
         base_url := getenvD env "GPT_41_BASE_URL" ""
         api_version := getenvD env "GPT_41_API_VERSION" "2025-03-01-preview"
         model := getenvD env "GPT_41_MODEL" "gpt-4.1"
         temperature := t3, max_tokens := m3, vision_enabled := false }),
      ("o4-mini",
       { api_type := getenvD env "O4_MINI_API_TYPE" "azure"
         api_key := getenvD env "O4_MINI_API_KEY" ""
         base_url := getenvD env "O4_MINI_BASE_URL" ""
         api_version := getenvD env "O4_MINI_API_VERSION" "2025-03-01-preview"
         model := getenvD env "O4_MINI_MODEL" "o4-mini"
         temperature := t4, max_tokens := m4, vision_enabled := false }) ]

/-- get_available_routes of both app files: the closed route set. -/
def get_available_routes : List String :=
  ["", "raw", "native", "cot", "dcot", "plan", "python"]

/-- create_custom_llm_config of both app files: the dict with the seven
explicit fields plus vision_enabled fixed to False. -/
def create_custom_llm_config (api_type api_key base_url api_version model : String)
    (temperature : Rat) (max_tokens : Int) : LLMConfig :=
  { api_type := api_type, api_key := api_key, base_url := base_url
    api_version := api_version, model := model, temperature := temperature
    max_tokens := max_tokens, vision_enabled := false }

/-- Configuration resolution of minion_respond_async in app_with_mcp.py
(lines 202-222): every None parameter is replaced by the corresponding
default_config field, and create_custom_llm_config is applied to the
results. preset_model is received but only printed; it does not flow into
the result. -/
def resolveConfigWithMcp (dc : LLMConfig) (preset_model : String)
    (api_type api_key base_url api_version model : Option String)
    (temperature : Option Rat) (max_tokens : Option Int) : LLMConfig :=
  create_custom_llm_config
    (api_type.getD dc.api_type)
    (api_key.getD dc.api_key)
    (base_url.getD dc.base_url)
    (api_version.getD dc.api_version)
    (model.getD dc.model)
    (temperature.getD dc.temperature)
    (max_tokens.getD dc.max_tokens)

/-- Configuration resolution of minion_respond_async in
app_without_mcp.py (lines 138-155): a non-Custom preset name selects
presets.get(preset_model, default_config) and copies all eight of its
fields into the dict; Custom applies create_custom_llm_config to the
explicit parameters. -/
def resolveConfigWithoutMcp (presets : List (String × LLMConfig)) (dc : LLMConfig)
    (preset_model api_type api_key base_url api_version model : String)
    (temperature : Rat) (max_tokens : Int) : LLMConfig :=
  if preset_model ≠ "Custom" then
    let c := (presets.lookup preset_model).getD dc
    { api_type := c.api_type, api_key := c.api_key, base_url := c.base_url
      api_version := c.api_version, model := c.model, temperature := c.temperature
      max_tokens := c.max_tokens, vision_enabled := c.vision_enabled }
  else
    create_custom_llm_config api_type api_key base_url api_version model temperature max_tokens

/-- A tool as handed to the brain (BrainTool from mcp_integration); for
this layer only its identity matters, so it is carried by its name. -/
structure BrainTool where
  name : String
deriving DecidableEq, Repr

/-- create_final_answer_tool of mcp_integration: the locally-defined
final-answer tool constructed by get_available_tools. -/
def create_final_answer_tool : BrainTool :=
  { name := "final_answer" }

/-- Outcomes of the collaborator calls setup_mcp_tools makes while
registering tool sources: the filesystem tool registration always
attempted, and the SSE / stdio server registrations attempted only when
their environment key is present. An `Except.error` models the exception a
registration raises; `Except.ok ts` models a successful registration that
contributes the tools ts to the client. -/
structure McpSourcesEnv where
  fsResult : Except String (List BrainTool)
  sseUrl : Option String
  sseResult : Except String (List BrainTool)
  stdioCmd : Option String
  stdioResult : Except String (List BrainTool)

/-- One try/except registration block of setup_mcp_tools: on success the
source's tools are appended to the client's accumulated tools; on failure a
warning line is appended and the state is otherwise unchanged (the
exception is swallowed). -/
def registerSource (acc : List BrainTool × List String) (label : String)
    (r : Except String (List BrainTool)) : List BrainTool × List String :=
  match r with
  | Except.ok ts => (acc.1 ++ ts, acc.2)
  | Except.error e => (acc.1, acc.2 ++ ["Failed to add " ++ label ++ ": " ++ e])

/-- setup_mcp_tools of app_with_mcp.py (first-construction path, lines
140-164): register the filesystem tool, then the SSE server if
MCP_SSE_URL is set, then the stdio server if MCP_STDIO_COMMAND is set,
each inside its own try/except. Returns the client's registered tools
(what get_tools_for_brain subsequently reports) together with the warning
lines printed for failed sources. -/
def setup_mcp_tools (env : McpSourcesEnv) : List BrainTool × List String :=
  let st1 := registerSource ([], []) "filesystem tool" env.fsResult
  let st2 :=
    match env.sseUrl with
    | some _ => registerSource st1 "SSE server" env.sseResult
    | none => st1
  match env.stdioCmd with
  | some _ => registerSource st2 "stdio server" env.stdioResult
  | none => st2

/-- get_available_tools of app_with_mcp.py (lines 168-180): on a
successful client setup the MCP tools are taken from the client; on a
setup exception the list is empty. The final-answer tool is constructed
but - mirroring the commented-out concatenation in the source - not
appended to the returned list. -/
def get_available_tools (clientInit : Except String McpSourcesEnv) : List BrainTool :=
  let mcp_tools :=
    match clientInit with
    | Except.ok env => (setup_mcp_tools env).1
    | Except.error _ => []
  let final_answer_tool := create_final_answer_tool
  mcp_tools

/-- The keyword arguments passed to brain.step: query and check always,
route as resolved (None for auto), query_type only when attached, tools
only when attached. -/
structure StepKwargs where
  query : String
  route : Option String
  check : Bool
  query_type : Option String
  tools : Option (List BrainTool)
deriving DecidableEq, Repr

/-- Payload assembly of minion_respond_async in app_with_mcp.py (lines
249-264): an empty route string becomes None (auto); query_type is added
only when route == "python" and query_type is truthy (non-empty); tools
are added when use_tools is set and fetching them did not raise. The same
route / query_type logic appears verbatim in app_without_mcp.py (lines
158-164, with no tools key). -/
def buildStepKwargs (query route query_type : String) (check_enabled use_tools : Bool)
    (toolsResult : Except String (List BrainTool)) : StepKwargs :=
  let route_param := if route ≠ "" then some route else none
  let base : StepKwargs :=
    { query := query, route := route_param, check := check_enabled
      query_type := none, tools := none }
  let withQt :=
    if route = "python" ∧ query_type ≠ "" then
      { base with query_type := some query_type }
    else base
  if use_tools then
    match toolsResult with
    | Except.ok ts => { withQt with tools := some ts }
    | Except.error _ => withQt
  else withQt

/-- The tuple brain.step resolves to: the code unpacks it as
obs, score, *_ - an observation, a score, and engine-specific trailing
fields. -/
structure StepResult where
  obs : String
  score : Rat
  extra : List String
deriving DecidableEq, Repr

/-- The two values minion_respond_async (app_with_mcp.py) derives from its
inputs and hands to the collaborators: the effective configuration dict
passed to build_brain_with_config, and the kwargs passed to brain.step. -/
def minionConfigAndKwargs (dc : LLMConfig) (query preset_model : String)
    (api_type api_key base_url api_version model : Option String)
    (temperature : Option Rat) (max_tokens : Option Int)
    (route query_type : String) (check_enabled use_tools : Bool)
    (toolsResult : Except String (List BrainTool)) : LLMConfig × StepKwargs :=
  (resolveConfigWithMcp dc preset_model api_type api_key base_url api_version model
      temperature max_tokens,
   buildStepKwargs query route query_type check_enabled use_tools toolsResult)

/-- minion_respond_async of app_with_mcp.py end to end, with the brain
factory plus brain.step abstracted as the function `engine`: resolve the
configuration, build the kwargs, invoke the engine once, and return - per
the line `obs, score, *_ = await brain.step(**kwargs); return obs` - the
observation component alone. -/
def minion_respond_async (engine : LLMConfig → StepKwargs → StepResult)
    (dc : LLMConfig) (query preset_model : String)
    (api_type api_key base_url api_version model : Option String)
    (temperature : Option Rat) (max_tokens : Option Int)
    (route query_type : String) (check_enabled use_tools : Bool)
    (toolsResult : Except String (List BrainTool)) : String :=
  let cfgKw := minionConfigAndKwargs dc query preset_model api_type api_key base_url
    api_version model temperature max_tokens route query_type check_enabled use_tools
    toolsResult
  (engine cfgKw.1 cfgKw.2).obs

/-- Shared process state for the lazy-singleton race in setup_mcp_tools:
the global mcp_client (None or the id of the constructed client), the id
the next construction would take, and counters for how many times
MCPBrainClient() was constructed and each tool source registered. The
model fixes an environment in which both MCP_SSE_URL and
MCP_STDIO_COMMAND are set and every registration succeeds. -/
structure AggState where
  client : Option Nat
  nextId : Nat
  constructCount : Nat
  regFs : Nat
  regSse : Nat
  regStdio : Nat
deriving DecidableEq, Repr

/-- One asyncio task running setup_mcp_tools: its program counter (an
atomic block between await points) and its return value once finished.
pc 0: at entry, about to run the atomic `if mcp_client is None:` check
(plus, on the None branch, the constructor assignment - no await separates
them); pc 1: suspended at `await mcp_client.__aenter__()`; pc 2/3/4: about
to register the filesystem / SSE / stdio source (each preceded by an
await); pc 5: finished via the construction path; pc 9: finished via the
reuse path. -/
structure TaskState where
  pc : Nat
  ret : Option Nat
deriving DecidableEq, Repr

/-- Execute one atomic block of setup_mcp_tools for one task. Because
asyncio only switches tasks at await points, the None check and the
assignment of the fresh client are a single step. -/
def taskStep (s : AggState) (t : TaskState) : AggState × TaskState :=
  if t.pc = 0 then
    match s.client with
    | none =>
      ({ s with client := some s.nextId, nextId := s.nextId + 1,
                constructCount := s.constructCount + 1 },
       { t with pc := 1 })
    | some c => (s, { pc := 9, ret := some c })
  else if t.pc = 1 then
    (s, { t with pc := 2 })
  else if t.pc = 2 then
    ({ s with regFs := s.regFs + 1 }, { t with pc := 3 })
  else if t.pc = 3 then
    ({ s with regSse := s.regSse + 1 }, { t with pc := 4 })
  else if t.pc = 4 then
    ({ s with regStdio := s.regStdio + 1 }, { t with pc := 5, ret := s.client })
  else
    (s, t)

/-- Two concurrent first-callers of setup_mcp_tools sharing one process
state. -/
structure RaceConfig where
  shared : AggState
  t1 : TaskState
  t2 : TaskState
deriving DecidableEq, Repr

/-- Run one scheduler decision: true steps the first task, false the
second. A finished task steps idly. -/
def raceStep (c : RaceConfig) (b : Bool) : RaceConfig :=
  if b then
    let r := taskStep c.shared c.t1
    { shared := r.1, t1 := r.2, t2 := c.t2 }
  else
    let r := taskStep c.shared c.t2
    { shared := r.1, t1 := c.t1, t2 := r.2 }

/-- Initial configuration: mcp_client is None, nothing constructed or
registered, both tasks at entry. -/
def raceInit : RaceConfig :=
  { shared := { client := none, nextId := 0, constructCount := 0
                regFs := 0, regSse := 0, regStdio := 0 }
    t1 := { pc := 0, ret := none }
    t2 := { pc := 0, ret := none } }

/-- Run an arbitrary interleaving of the two tasks. -/
def raceRun (sched : List Bool) : RaceConfig :=
  sched.foldl raceStep raceInit

/-- Invariant piece: a task inside the construction path, with the
registration counters pinned to its progress. -/
def ownerAt (s : AggState) (t : TaskState) : Prop :=
  (t.pc = 1 ∧ s.regFs = 0 ∧ s.regSse = 0 ∧ s.regStdio = 0 ∧ t.ret = none) ∨
  (t.pc = 2 ∧ s.regFs = 0 ∧ s.regSse = 0 ∧ s.regStdio = 0 ∧ t.ret = none) ∨
  (t.pc = 3 ∧ s.regFs = 1 ∧ s.regSse = 0 ∧ s.regStdio = 0 ∧ t.ret = none) ∨
  (t.pc = 4 ∧ s.regFs = 1 ∧ s.regSse = 1 ∧ s.regStdio = 0 ∧ t.ret = none) ∨
  (t.pc = 5 ∧ s.regFs = 1 ∧ s.regSse = 1 ∧ s.regStdio = 1 ∧ t.ret = some 0)

/-- Invariant piece: a task outside the construction path - still at
entry, or finished through the reuse branch with the one constructed
client. -/
def otherAt (t : TaskState) : Prop :=
  (t.pc = 0 ∧ t.ret = none) ∨ (t.pc = 9 ∧ t.ret = some 0)

/-- Race invariant: either nothing has been constructed and both tasks sit
at entry, or exactly one client (id 0) exists and exactly one task owns
the construction path while the other is at entry or has reused the
client. -/
def racePair (s : AggState) (t u : TaskState) : Prop :=
  (s.client = none ∧ s.nextId = 0 ∧ s.constructCount = 0 ∧ s.regFs = 0 ∧
    s.regSse = 0 ∧ s.regStdio = 0 ∧ t.pc = 0 ∧ t.ret = none ∧ u.pc = 0 ∧ u.ret = none) ∨
  (s.client = some 0 ∧ s.nextId = 1 ∧ s.constructCount = 1 ∧
    ((ownerAt s t ∧ otherAt u) ∨ (ownerAt s u ∧ otherAt t)))

/-- An empty process environment: every os.getenv call takes its literal
default. -/
def env0 : Env := fun _ => none

/-- An environment whose only set key is a non-numeric
DEFAULT_TEMPERATURE. -/
def env1 : Env := fun k => if k = "DEFAULT_TEMPERATURE" then some "hot" else none

/-- The default configuration produced under env0. -/
def dc0 : LLMConfig :=
  { api_type := "azure", api_key := "", base_url := "", api_version := "2024-06-01"
    model := "gpt-4o", temperature := mkRat 7 10, max_tokens := 4000
    vision_enabled := false }

/-- The gpt-4o preset produced under env0 - its temperature default is the
literal "0", unlike the global default's "0.7". -/
def gpt4oPreset0 : LLMConfig :=
  { api_type := "azure", api_key := "", base_url := "", api_version := "2024-06-01"
    model := "gpt-4o", temperature := 0, max_tokens := 4000, vision_enabled := false }

/-- The full preset table produced under env0. -/
def presets0 : List (String × LLMConfig) :=
  [ ("gpt-4o", gpt4oPreset0),
    ("gpt-4o-mini",
      { gpt4oPreset0 with model := "gpt-4o-mini", temperature := mkRat 1 10 }),
    ("gpt-4.1",
      { gpt4oPreset0 with model := "gpt-4.1", api_version := "2025-03-01-preview",
                          temperature := mkRat 7 10 }),
    ("o4-mini",
      { gpt4oPreset0 with model := "o4-mini", api_version := "2025-03-01-preview",
                          temperature := mkRat 7 10 }) ]

/-- A concrete engine reporting observation "ans" with score 1 and no
trailing fields. -/
def engA : LLMConfig → StepKwargs → StepResult :=
  fun _ _ => { obs := "ans", score := 1, extra := [] }

/-- A concrete engine agreeing with engA on the observation but differing
in score and trailing fields. -/
def engB : LLMConfig → StepKwargs → StepResult :=
  fun _ _ => { obs := "ans", score := 2, extra := ["tail"] }

/-- Run minion_respond_async on fixed inputs with the given engine. -/
def runDemo (engine : LLMConfig → StepKwargs → StepResult) : String :=
  minion_respond_async engine dc0 "q" "gpt-4o" none none none none none none none
    "" "calculate" false false (Except.ok [])

/-- A concrete schedule: the first task runs its five blocks to
completion, then the second task enters and reuses the client. -/
def sched0 : List Bool := [true, true, true, true, true, false]

/-- Reduction of a successful Except bind, as produced by do-notation. -/
theorem except_bind_ok {ε α β : Type} (a : α) (f : α → Except ε β) :
    (Except.ok (ε := ε) a >>= f) = f a := rfl

/-- Reduction of a failed Except bind: the error short-circuits. -/
theorem except_bind_error {ε α β : Type} (e : ε) (f : α → Except ε β) :
    (Except.error (α := α) e >>= f) = Except.error (α := β) e := rfl

/-- Claim C1 fails on the code: with an empty process environment the
known preset "gpt-4o" carries temperature 0 while the global default
carries 7/10, yet the MCP variant resolves an un-overridden temperature to
the global default 7/10, not the preset value; and the non-MCP variant
with preset "gpt-4o" resolves temperature to the preset value 0 even
though an explicit override 1/2 is supplied. -/
theorem c1_counterexample :
    get_default_config env0 = Except.ok dc0
    ∧ get_preset_configs env0 = Except.ok presets0
    ∧ presets0.lookup "gpt-4o" = some gpt4oPreset0
    ∧ (resolveConfigWithMcp dc0 "gpt-4o" none none none none none none none).temperature
        = mkRat 7 10
    ∧ gpt4oPreset0.temperature = 0
    ∧ ¬ (mkRat 7 10 = (0 : Rat))
    ∧ (resolveConfigWithoutMcp presets0 dc0 "gpt-4o" "openai" "k" "u" "v" "m"
        (mkRat 1 2) 123).temperature = 0
    ∧ ¬ (mkRat 1 2 = (0 : Rat)) := by
  refine ⟨by decide, by decide, by decide, by decide, by decide, by decide, by decide,
    by decide⟩

/-- Claim C1 amended: the layering is not override-over-preset-over-default.
In the MCP variant each of the seven fields is the explicit override when
supplied, else the global default - the preset identifier is never
consulted. In the non-MCP variant a non-Custom preset identifier supplies
the entire configuration, presets.get(preset_model, default_config)
ignoring every explicit field, while Custom takes exactly the explicit
fields. -/
theorem c1_amended_resolution (dc : LLMConfig) (ps : List (String × LLMConfig))
    (p : String) (a k b v m : Option String) (t : Option Rat) (mt : Option Int)
    (a2 k2 b2 v2 m2 : String) (t2 : Rat) (mt2 : Int) :
    ((resolveConfigWithMcp dc p a k b v m t mt).api_type = a.getD dc.api_type
      ∧ (resolveConfigWithMcp dc p a k b v m t mt).api_key = k.getD dc.api_key
      ∧ (resolveConfigWithMcp dc p a k b v m t mt).base_url = b.getD dc.base_url
      ∧ (resolveConfigWithMcp dc p a k b v m t mt).api_version = v.getD dc.api_version
      ∧ (resolveConfigWithMcp dc p a k b v m t mt).model = m.getD dc.model
      ∧ (resolveConfigWithMcp dc p a k b v m t mt).temperature = t.getD dc.temperature
      ∧ (resolveConfigWithMcp dc p a k b v m t mt).max_tokens = mt.getD dc.max_tokens)
    ∧ resolveConfigWithoutMcp ps dc p a2 k2 b2 v2 m2 t2 mt2
        = (if p = "Custom" then create_custom_llm_config a2 k2 b2 v2 m2 t2 mt2
           else (ps.lookup p).getD dc) := by
  constructor
  · exact ⟨rfl, rfl, rfl, rfl, rfl, rfl, rfl⟩
  · by_cases h : p = "Custom" <;> simp [resolveConfigWithoutMcp, h]

/-- Claim C2 fails on the code: the tag "bogus" is outside the closed
route set, yet payload construction succeeds and forwards it verbatim as
the route - no ValidationError exists anywhere on this path. -/
theorem c2_counterexample :
    (buildStepKwargs "q" "bogus" "calculate" false false (Except.ok [])).route
        = some "bogus"
    ∧ ¬ ("bogus" ∈ get_available_routes) := by
  exact ⟨by decide, by decide⟩

/-- Claim C2 amended: no route validation is performed. Payload
construction is total; a non-empty route tag, recognized or not, is passed
through verbatim to the engine (the empty tag alone becomes None). The UI
dropdown is the only thing constraining routes. -/
theorem c2_amended_route_passthrough (q r qt : String) (ck ut : Bool)
    (tr : Except String (List BrainTool)) :
    (buildStepKwargs q r qt ck ut tr).route = if r = "" then none else some r := by
  by_cases h : r = "" <;> by_cases h2 : r = "python" ∧ qt ≠ "" <;>
    cases ut <;> rcases tr with e | ts <;>
      simp [buildStepKwargs, h, h2]

/-- Claim C3 fails on the code at one edge: with route "python" but an
empty (falsy) query_type string, the query_type key is omitted from the
payload, so presence does not hold in the left-to-right direction of the
claimed equivalence. -/
theorem c3_counterexample :
    (buildStepKwargs "q" "python" "" false false (Except.ok [])).query_type = none := by
  decide

/-- Claim C3 amended: the query_type key is present in the payload iff
route is "python" and the supplied query_type is non-empty (Python
truthiness); in that case it carries the supplied value, and for every
other route the supplied value is dropped entirely. -/
theorem c3_amended_query_type (q r qt : String) (ck ut : Bool)
    (tr : Except String (List BrainTool)) :
    (buildStepKwargs q r qt ck ut tr).query_type
        = (if r = "python" ∧ qt ≠ "" then some qt else none) := by
  by_cases h : r = "python" ∧ qt ≠ "" <;>
    cases ut <;> rcases tr with e | ts <;>
      simp [buildStepKwargs, h]

/-- Claim C4: a present but non-numeric DEFAULT_TEMPERATURE or
DEFAULT_MAX_TOKENS makes configuration resolution fail with the
ValueError realizing the spec's ConfigurationError (resolution is pure -
no network is touched); the same holds for the first preset temperature
key; and a genuinely absent key falls back to the layered literal default
(0.7 and 4000). -/
theorem c4_numeric_config_errors (env : Env) (s : String) (cfg : LLMConfig) :
    (env "DEFAULT_TEMPERATURE" = some s → pyFloat? s = none →
      get_default_config env = Except.error (ConfigError.valueError "DEFAULT_TEMPERATURE"))
    ∧ ((pyFloat? (getenvD env "DEFAULT_TEMPERATURE" "0.7")).isSome →
      env "DEFAULT_MAX_TOKENS" = some s → pyInt? s = none →
      get_default_config env = Except.error (ConfigError.valueError "DEFAULT_MAX_TOKENS"))
    ∧ (env "DEFAULT_TEMPERATURE" = none → get_default_config env = Except.ok cfg →
      cfg.temperature = mkRat 7 10)
    ∧ (env "DEFAULT_MAX_TOKENS" = none → get_default_config env = Except.ok cfg →
      cfg.max_tokens = 4000)
    ∧ (env "GPT_4O_TEMPERATURE" = some s → pyFloat? s = none →
      get_preset_configs env = Except.error (ConfigError.valueError "GPT_4O_TEMPERATURE")) := by
  refine ⟨?_, ?_, ?_, ?_, ?_⟩
  · intro h1 h2
    simp [get_default_config, envFloat, getenvD, h1, h2, except_bind_error]
  · intro hsome h1 h2
    obtain ⟨v, hv⟩ := Option.isSome_iff_exists.mp hsome
    have hf : envFloat env "DEFAULT_TEMPERATURE" "0.7" = Except.ok v := by
      simp [envFloat, hv]
    simp [get_default_config, hf, envInt, getenvD, h1, h2, except_bind_ok,
      except_bind_error]
  · intro h1 hok
    have hf : envFloat env "DEFAULT_TEMPERATURE" "0.7" = Except.ok (mkRat 7 10) := by
      simp [envFloat, getenvD, h1,
        show pyFloat? "0.7" = some (mkRat 7 10) from by decide]
    rcases hm : envInt env "DEFAULT_MAX_TOKENS" "4000" with e | mv
    · simp [get_default_config, hf, hm, except_bind_ok, except_bind_error] at hok
    · simp only [get_default_config, hf, hm, except_bind_ok, Except.ok.injEq] at hok
      subst hok
      rfl
  · intro h1 hok
    have hm : envInt env "DEFAULT_MAX_TOKENS" "4000" = Except.ok 4000 := by
      simp [envInt, getenvD, h1, show pyInt? "4000" = some 4000 from by decide]
    rcases hf : envFloat env "DEFAULT_TEMPERATURE" "0.7" with e | tv
    · simp [get_default_config, hf, except_bind_error] at hok
    · simp only [get_default_config, hf, hm, except_bind_ok, Except.ok.injEq] at hok
      subst hok
      rfl
  · intro h1 h2
    simp [get_preset_configs, envFloat, getenvD, h1, h2, except_bind_error]

/-- Concrete witness for C4: under an environment whose only set key is
DEFAULT_TEMPERATURE = "hot", resolution fails immediately with the
temperature ValueError. -/
theorem c4_numeric_config_errors_witness :
    env1 "DEFAULT_TEMPERATURE" = some "hot" ∧ pyFloat? "hot" = none ∧
    get_default_config env1 = Except.error (ConfigError.valueError "DEFAULT_TEMPERATURE") :=
  ⟨by decide, by decide,
    (c4_numeric_config_errors env1 "hot" dc0).1 (by decide) (by decide)⟩

/-- Claim C5: source registration failures are isolated. Whichever single
source of the three (filesystem, SSE, stdio - the latter two with their
environment keys set) raises, the other two still register, the client's
tool list is exactly the concatenation of their tools, and the failure
becomes one warning line rather than an exception (setup_mcp_tools is a
total function into catalog-plus-warnings). -/
theorem c5_partial_failure_isolation (ts1 ts2 : List BrainTool) (u c e : String) :
    setup_mcp_tools
        { fsResult := Except.error e, sseUrl := some u, sseResult := Except.ok ts1
          stdioCmd := some c, stdioResult := Except.ok ts2 }
      = (ts1 ++ ts2, ["Failed to add filesystem tool: " ++ e])
    ∧ setup_mcp_tools
        { fsResult := Except.ok ts1, sseUrl := some u, sseResult := Except.error e
          stdioCmd := some c, stdioResult := Except.ok ts2 }
      = (ts1 ++ ts2, ["Failed to add SSE server: " ++ e])
    ∧ setup_mcp_tools
        { fsResult := Except.ok ts1, sseUrl := some u, sseResult := Except.ok ts2
          stdioCmd := some c, stdioResult := Except.error e }
      = (ts1 ++ ts2, ["Failed to add stdio server: " ++ e]) := by
  refine ⟨?_, ?_, ?_⟩ <;> simp [setup_mcp_tools, registerSource]

/-- Claim C6 fails on the code: two engines that agree on the observation
but differ in score and trailing fields produce the same dispatcher
output - the return is the observation string alone, so neither the score
nor the trailing fields are passed through. -/
theorem c6_counterexample :
    (engA dc0 (buildStepKwargs "q" "" "calculate" false false (Except.ok []))).score = 1
    ∧ (engB dc0 (buildStepKwargs "q" "" "calculate" false false (Except.ok []))).score = 2
    ∧ runDemo engA = runDemo engB
    ∧ runDemo engA = "ans" := by
  refine ⟨by decide, by decide, by decide, by decide⟩

/-- Claim C6 amended: the dispatcher returns only the engine's observation
(the first component of the step result); the score and any trailing
engine-specific fields are discarded, so the output depends on the engine
only through its observation. -/
theorem c6_amended_observation_only (e1 e2 : LLMConfig → StepKwargs → StepResult)
    (h : ∀ cfg kw, (e1 cfg kw).obs = (e2 cfg kw).obs)
    (dc : LLMConfig) (q p : String) (a k b v m : Option String) (t : Option Rat)
    (mt : Option Int) (r qt : String) (ck ut : Bool)
    (tr : Except String (List BrainTool)) :
    minion_respond_async e1 dc q p a k b v m t mt r qt ck ut tr
      = minion_respond_async e2 dc q p a k b v m t mt r qt ck ut tr :=
  h _ _

/-- Concrete witness for the amended C6, instantiated at the two engines
engA and engB that agree on the observation "ans". -/
theorem c6_amended_observation_only_witness :
    runDemo engA = runDemo engB :=
  c6_amended_observation_only engA engB (fun _ _ => rfl) dc0 "q" "gpt-4o"
    none none none none none none none "" "calculate" false false (Except.ok [])

/-- Claim C8: the empty-string route is normalized to None (auto) in the
payload handed to brain.step, never forwarded as the empty string. -/
theorem c8_empty_route_auto (q qt : String) (ck ut : Bool)
    (tr : Except String (List BrainTool)) :
    (buildStepKwargs q "" qt ck ut tr).route = none := by
  cases ut <;> rcases tr with e | ts <;> simp [buildStepKwargs]

/-- Claim C9: get_available_tools constructs the local final-answer tool
but returns exactly the tools the MCP client reports (the concatenation is
commented out in the source); on a setup failure it returns the empty
list, and in particular the final-answer tool is never appended. -/
theorem c9_final_tool_excluded (env : McpSourcesEnv) (e : String) :
    get_available_tools (Except.ok env) = (setup_mcp_tools env).1
    ∧ get_available_tools (Except.error e) = []
    ∧ get_available_tools (Except.ok env)
        ≠ (setup_mcp_tools env).1 ++ [create_final_answer_tool] := by
  refine ⟨rfl, rfl, ?_⟩
  intro h
  have hlen := congrArg List.length h
  simp [get_available_tools] at hlen

/-- Step equation: a task at entry with no client constructed takes the
atomic check-and-construct block. -/
theorem taskStep_pc0_none (s : AggState) (t : TaskState) (hp : t.pc = 0)
    (hc : s.client = none) :
    taskStep s t
      = ({ s with client := some s.nextId, nextId := s.nextId + 1,
                  constructCount := s.constructCount + 1 },
         { t with pc := 1 }) := by
  simp [taskStep, hp, hc]

/-- Step equation: a task at entry that sees a constructed client takes
the reuse branch and finishes at once. -/
theorem taskStep_pc0_some (s : AggState) (t : TaskState) (c : Nat) (hp : t.pc = 0)
    (hc : s.client = some c) :
    taskStep s t = (s, { pc := 9, ret := some c }) := by
  simp [taskStep, hp, hc]

/-- Step equation: the aenter block advances without touching shared
state. -/
theorem taskStep_pc1 (s : AggState) (t : TaskState) (hp : t.pc = 1) :
    taskStep s t = (s, { t with pc := 2 }) := by
  simp [taskStep, hp]

/-- Step equation: the filesystem-tool registration block. -/
theorem taskStep_pc2 (s : AggState) (t : TaskState) (hp : t.pc = 2) :
    taskStep s t = ({ s with regFs := s.regFs + 1 }, { t with pc := 3 }) := by
  simp [taskStep, hp]

/-- Step equation: the SSE-server registration block. -/
theorem taskStep_pc3 (s : AggState) (t : TaskState) (hp : t.pc = 3) :
    taskStep s t = ({ s with regSse := s.regSse + 1 }, { t with pc := 4 }) := by
  simp [taskStep, hp]

/-- Step equation: the stdio-server registration block, after which the
task returns the shared client. -/
theorem taskStep_pc4 (s : AggState) (t : TaskState) (hp : t.pc = 4) :
    taskStep s t
      = ({ s with regStdio := s.regStdio + 1 }, { t with pc := 5, ret := s.client }) := by
  simp [taskStep, hp]

/-- Step equation: a finished construction-path task steps idly. -/
theorem taskStep_pc5 (s : AggState) (t : TaskState) (hp : t.pc = 5) :
    taskStep s t = (s, t) := by
  simp [taskStep, hp]

/-- Step equation: a finished reuse-path task steps idly. -/
theorem taskStep_pc9 (s : AggState) (t : TaskState) (hp : t.pc = 9) :
    taskStep s t = (s, t) := by
  simp [taskStep, hp]

/-- The race invariant is symmetric in the two tasks. -/
theorem racePair_symm {s : AggState} {t u : TaskState} (h : racePair s t u) :
    racePair s u t := by
  rcases h with ⟨hc, hn, hcc, hf, hs, hd, htp, htr, hup, hur⟩ | ⟨hc, hn, hcc, hrest⟩
  · exact Or.inl ⟨hc, hn, hcc, hf, hs, hd, hup, hur, htp, htr⟩
  · exact Or.inr ⟨hc, hn, hcc, hrest.symm⟩

/-- The race invariant is preserved when the first of the two tasks
executes one atomic block. -/
theorem racePair_step (s : AggState) (t u : TaskState) (h : racePair s t u) :
    racePair (taskStep s t).1 (taskStep s t).2 u := by
  rcases h with ⟨hc, hn, hcc, hf, hs, hd, htp, htr, hup, hur⟩ |
    ⟨hc, hn, hcc, ⟨how, hot⟩ | ⟨how, hot⟩⟩
  · -- fresh state, t at entry: this step constructs the client
    rw [taskStep_pc0_none s t htp hc]
    right
    refine ⟨?_, ?_, ?_, Or.inl ⟨Or.inl ⟨rfl, hf, hs, hd, htr⟩, Or.inl ⟨hup, hur⟩⟩⟩
    · show some s.nextId = some 0
      rw [hn]
    · show s.nextId + 1 = 1
      rw [hn]
    · show s.constructCount + 1 = 1
      rw [hcc]
  · -- t owns the construction path and advances one block
    rcases how with ⟨hp, hf, hs, hd, hr⟩ | ⟨hp, hf, hs, hd, hr⟩ | ⟨hp, hf, hs, hd, hr⟩ |
      ⟨hp, hf, hs, hd, hr⟩ | ⟨hp, hf, hs, hd, hr⟩
    · rw [taskStep_pc1 s t hp]
      right
      exact ⟨hc, hn, hcc, Or.inl ⟨Or.inr (Or.inl ⟨rfl, hf, hs, hd, hr⟩), hot⟩⟩
    · rw [taskStep_pc2 s t hp]
      right
      refine ⟨hc, hn, hcc,
        Or.inl ⟨Or.inr (Or.inr (Or.inl ⟨rfl, ?_, hs, hd, hr⟩)), hot⟩⟩
      show s.regFs + 1 = 1
      rw [hf]
    · rw [taskStep_pc3 s t hp]
      right
      refine ⟨hc, hn, hcc,
        Or.inl ⟨Or.inr (Or.inr (Or.inr (Or.inl ⟨rfl, hf, ?_, hd, hr⟩))), hot⟩⟩
      show s.regSse + 1 = 1
      rw [hs]
    · rw [taskStep_pc4 s t hp]
      right
      refine ⟨hc, hn, hcc,
        Or.inl ⟨Or.inr (Or.inr (Or.inr (Or.inr ⟨rfl, hf, hs, ?_, hc⟩))), hot⟩⟩
      show s.regStdio + 1 = 1
      rw [hd]
    · rw [taskStep_pc5 s t hp]
      right
      exact ⟨hc, hn, hcc,
        Or.inl ⟨Or.inr (Or.inr (Or.inr (Or.inr ⟨hp, hf, hs, hd, hr⟩))), hot⟩⟩
  · -- u owns the construction path; t is at entry or already finished
    rcases hot with ⟨hp, hr⟩ | ⟨hp, hr⟩
    · rw [taskStep_pc0_some s t 0 hp hc]
      right
      exact ⟨hc, hn, hcc, Or.inr ⟨how, Or.inr ⟨rfl, rfl⟩⟩⟩
    · rw [taskStep_pc9 s t hp]
      right
      exact ⟨hc, hn, hcc, Or.inr ⟨how, Or.inr ⟨hp, hr⟩⟩⟩

/-- The race invariant holds along any interleaving started from an
invariant configuration. -/
theorem racePair_foldl (sched : List Bool) (c : RaceConfig)
    (h : racePair c.shared c.t1 c.t2) :
    racePair (sched.foldl raceStep c).shared (sched.foldl raceStep c).t1
      (sched.foldl raceStep c).t2 := by
  induction sched generalizing c with
  | nil => simpa using h
  | cons b rest ih =>
    rw [List.foldl_cons]
    apply ih
    cases b
    · exact racePair_symm (racePair_step c.shared c.t2 c.t1 (racePair_symm h))
    · exact racePair_step c.shared c.t1 c.t2 h

/-- The race invariant holds after every schedule from the initial
configuration. -/
theorem racePair_run (sched : List Bool) :
    racePair (raceRun sched).shared (raceRun sched).t1 (raceRun sched).t2 := by
  apply racePair_foldl
  left
  exact ⟨rfl, rfl, rfl, rfl, rfl, rfl, rfl, rfl, rfl, rfl⟩

/-- Claim C7: for every interleaving of two concurrent first-callers of
setup_mcp_tools under cooperative async scheduling (task switches only at
await points, so the None check and the client assignment are one atomic
block), once both callers have finished exactly one MCPBrainClient was
constructed, each tool source was registered exactly once, and both
callers returned the same single client. -/
theorem c7_single_construction (sched : List Bool)
    (h1 : (raceRun sched).t1.pc = 5 ∨ (raceRun sched).t1.pc = 9)
    (h2 : (raceRun sched).t2.pc = 5 ∨ (raceRun sched).t2.pc = 9) :
    (raceRun sched).shared.constructCount = 1
    ∧ (raceRun sched).shared.regFs = 1
    ∧ (raceRun sched).shared.regSse = 1
    ∧ (raceRun sched).shared.regStdio = 1
    ∧ (raceRun sched).shared.client = some 0
    ∧ (raceRun sched).t1.ret = some 0
    ∧ (raceRun sched).t2.ret = some 0 := by
  have hinv := racePair_run sched
  rcases hinv with ⟨hc, hn, hcc, hf, hs, hd, htp, htr, hup, hur⟩ |
    ⟨hc, hn, hcc, ⟨how, hot⟩ | ⟨how, hot⟩⟩
  · rw [htp] at h1
    omega
  · -- t1 owns the construction path: being done forces pc = 5
    rcases how with ⟨hp, hf, hs, hd, hr⟩ | ⟨hp, hf, hs, hd, hr⟩ | ⟨hp, hf, hs, hd, hr⟩ |
      ⟨hp, hf, hs, hd, hr⟩ | ⟨hp, hf, hs, hd, hr⟩ <;> rw [hp] at h1
    · omega
    · omega
    · omega
    · omega
    · rcases hot with ⟨hp2, hr2⟩ | ⟨hp2, hr2⟩
      · rw [hp2] at h2
        omega
      · exact ⟨hcc, hf, hs, hd, hc, hr, hr2⟩
  · -- t2 owns the construction path: symmetric
    rcases how with ⟨hp, hf, hs, hd, hr⟩ | ⟨hp, hf, hs, hd, hr⟩ | ⟨hp, hf, hs, hd, hr⟩ |
      ⟨hp, hf, hs, hd, hr⟩ | ⟨hp, hf, hs, hd, hr⟩ <;> rw [hp] at h2
    · omega
    · omega
    · omega
    · omega
    · rcases hot with ⟨hp2, hr2⟩ | ⟨hp2, hr2⟩
      · rw [hp2] at h1
        omega
      · exact ⟨hcc, hf, hs, hd, hc, hr2, hr⟩

/-- Concrete witness for C7: the schedule in which the first task runs to
completion and the second then enters satisfies both completion
hypotheses, and the conclusions evaluate as claimed. -/
theorem c7_single_construction_witness :
    ((raceRun sched0).t1.pc = 5 ∨ (raceRun sched0).t1.pc = 9)
    ∧ ((raceRun sched0).t2.pc = 5 ∨ (raceRun sched0).t2.pc = 9)
    ∧ ((raceRun sched0).shared.constructCount = 1
      ∧ (raceRun sched0).shared.regFs = 1
      ∧ (raceRun sched0).shared.regSse = 1
      ∧ (raceRun sched0).shared.regStdio = 1
      ∧ (raceRun sched0).shared.client = some 0
      ∧ (raceRun sched0).t1.ret = some 0
      ∧ (raceRun sched0).t2.ret = some 0) :=
  ⟨by decide, by decide, c7_single_construction sched0 (by decide) (by decide)⟩

/-- Claim C10: in the MCP variant preset_model does not interfere with
the executed request - for any two calls differing only in preset_model,
the effective configuration dict handed to the brain factory and the
kwargs handed to brain.step are identical. -/
theorem c10_preset_noninterference (dc : LLMConfig) (q p1 p2 : String)
    (a k b v m : Option String) (t : Option Rat) (mt : Option Int)
    (r qt : String) (ck ut : Bool) (tr : Except String (List BrainTool)) :
    minionConfigAndKwargs dc q p1 a k b v m t mt r qt ck ut tr
      = minionConfigAndKwargs dc q p2 a k b v m t mt r qt ck ut tr :=
  rfl
